import Mathlib

/-!
Shallow embedding of the load exit-order optimization engine
(`frontend/src/utils/loadOptimization.ts`) of the load-organiser repository,
together with proofs about its behaviour.

Modelling conventions:
* TypeScript string-union fields (`jumpType`, `experienceLevel`) are plain
  strings, as in the source, so the fallback branches of the `switch`
  statements are reachable.
* JavaScript numbers are `Int` where the source only produces integers
  (altitudes, fall rates, times, priorities) and `ℚ` where fractional values
  occur (weights, the utilization percentage).
* Optional fields are `Option`; each JS truthiness test on them is spelled out
  where it is used.
* `Array.prototype.sort(cmp)` is modelled as a stable insertion sort on the
  comparator: an element is inserted before the first element `e` of the
  sorted tail with `cmp x e ≤ 0`, so earlier elements stay before later tied
  ones, and elements compare-before their successors in the result.
* Division that JavaScript sends to a non-finite value (`0/0 = NaN`,
  `x/0 = ±Infinity`) is modelled as `none` in `Option ℚ`; every JS ordering
  comparison against `NaN` is false, which is noted where it matters.
-/

namespace LoadOrganiser

open List

/-- Model of the `Jumper` interface of `loadOptimization.ts`. -/
structure Jumper where
  id : String
  name : String
  jumpType : String
  experienceLevel : String
  weight : ℚ
  exitAltitude : Int
  fallRate : Option Int
  requiresInstructor : Option Bool
  instructorId : Option String
  deriving DecidableEq

/-- Model of the `JumpGroup` interface. -/
structure JumpGroup where
  jumpers : List Jumper
  exitAltitude : Int
  groupType : String
  estimatedTime : Int
  deriving DecidableEq

/-- Model of the `OptimizedLoad` interface. -/
structure OptimizedLoad where
  exitOrder : List Jumper
  groups : List JumpGroup
  totalTime : Int
  recommendations : List String
  deriving DecidableEq

/-- Model of the anonymous result record of `optimizeCapacity`. -/
structure CapacityResult where
  selectedJumpers : List Jumper
  waitingList : List Jumper
  utilizationScore : Option ℚ
  deriving DecidableEq

/-- JavaScript division on numbers, with the non-finite results of a zero
denominator (`0/0 = NaN`, `x/0 = ±Infinity`) modelled as `none`. -/
def jsDiv (a b : ℚ) : Option ℚ :=
  if b = 0 then none else some (a / b)

/-- Model of `getDefaultFallRate` (source lines 77–90). -/
def getDefaultFallRate (jumper : Jumper) : Int :=
  if jumper.jumpType = "tandem" then 120
  else if jumper.jumpType = "aff" then 110
  else if jumper.jumpType = "fun_jump" then
    (if jumper.experienceLevel = "expert" then 140 else 130)
  else if jumper.jumpType = "coach_jump" then 125
  else 130

/-- Model of the expression `a.fallRate || getDefaultFallRate(a)` used by the
exit comparator (source lines 51–52): an absent fall rate (`undefined`) and
the falsy number `0` both fall back to the default. -/
def effectiveFallRate (jumper : Jumper) : Int :=
  match jumper.fallRate with
  | none => getDefaultFallRate jumper
  | some v => if v = 0 then getDefaultFallRate jumper else v

/-- Model of the comparator passed to `sort` in `calculateExitOrder`
(source lines 32–57), as a sequence of early returns. -/
def cmpExit (a b : Jumper) : Int :=
  if a.jumpType = "tandem" ∧ b.jumpType ≠ "tandem" then -1
  else if b.jumpType = "tandem" ∧ a.jumpType ≠ "tandem" then 1
  else if a.jumpType = "aff" ∧ b.jumpType ≠ "aff" ∧ b.jumpType ≠ "tandem" then -1
  else if b.jumpType = "aff" ∧ a.jumpType ≠ "aff" ∧ a.jumpType ≠ "tandem" then 1
  else if a.jumpType = b.jumpType then
    (if a.exitAltitude ≠ b.exitAltitude then b.exitAltitude - a.exitAltitude
     else effectiveFallRate a - effectiveFallRate b)
  else 0

/-- The sorting relation induced by the exit-order comparator: `a` may stand
before `b` exactly when the comparator does not demand the opposite order. -/
def exitBefore (a b : Jumper) : Prop :=
  cmpExit a b ≤ 0

instance : DecidableRel exitBefore :=
  fun a b => inferInstanceAs (Decidable (cmpExit a b ≤ 0))

/-- The template-literal group key of `createJumpGroups` (source line 102). -/
def groupKey (jumper : Jumper) : String :=
  jumper.jumpType ++ "-" ++ toString jumper.exitAltitude

/-- Model of `calculateGroupTime` (source lines 139–144). -/
def calculateGroupTime (jumpers : List Jumper) : Int :=
  60 + ((jumpers.length : Int) - 1) * 10

/-- The loop of `createJumpGroups` (source lines 101–131), carrying the
mutable locals `groups`, `currentGroup`, `currentAltitude` and `currentType`
as arguments; the base case performs the final push of a non-empty current
group. -/
def createJumpGroupsLoop :
    List Jumper → List JumpGroup → List Jumper → Int → String → List JumpGroup
  | [], groups, currentGroup, currentAltitude, currentType =>
    if currentGroup.length > 0 then
      groups ++ [⟨currentGroup, currentAltitude, currentType,
        calculateGroupTime currentGroup⟩]
    else groups
  | jumper :: rest, groups, currentGroup, currentAltitude, currentType =>
    if currentType ≠ groupKey jumper ∨ currentGroup.length ≥ 8 then
      createJumpGroupsLoop rest
        (if currentGroup.length > 0 then
          groups ++ [⟨currentGroup, currentAltitude, currentType,
            calculateGroupTime currentGroup⟩]
         else groups)
        [jumper] jumper.exitAltitude (groupKey jumper)
    else
      createJumpGroupsLoop rest groups (currentGroup ++ [jumper])
        currentAltitude currentType

/-- Model of `createJumpGroups` (source lines 95–134). -/
def createJumpGroups (jumpers : List Jumper) : List JumpGroup :=
  createJumpGroupsLoop jumpers [] [] 0 ""

/-- Model of `calculateTotalTime` (source lines 149–158): climb time plus the
sum of group times plus the transition term `30 × (groupCount − 1)`, over the
integers, exactly as the source computes it. -/
def calculateTotalTime (groups : List JumpGroup) : Int :=
  20 * 60 + (groups.map (fun g => g.estimatedTime)).sum
    + ((groups.length : Int) - 1) * 30

/-- Recommendation string pushed for more than six tandems. -/
def recSplitTandems : String :=
  "Consider splitting tandems across multiple loads for safety"

/-- Recommendation string pushed for more than four AFF students. -/
def recAffCoverage : String :=
  "High number of AFF students - ensure adequate instructor coverage"

/-- Recommendation string pushed for more than five groups. -/
def recConsolidate : String :=
  "Multiple altitude changes - consider consolidating groups"

/-- Recommendation string pushed by the instructor-capacity check. -/
def recInstructorCapacity : String :=
  "Instructor capacity may be exceeded - consider additional instructors"

/-- Recommendation string pushed by the average-weight check. -/
def recHeavyLoad : String :=
  "Heavy load - verify aircraft weight and balance limits"

/-- The local `instructorRequiredJumpers` (source lines 193–195): the truthy
filter on the optional `requiresInstructor` field keeps exactly the jumpers
whose field is present and true. -/
def instructorRequiredJumpers (allJumpers : List Jumper) : List Jumper :=
  allJumpers.filter (fun j => j.requiresInstructor.getD false)

/-- Model of `new Set(instructorRequiredJumpers.map(j => j.instructorId)).size`
(source lines 196–198): the number of distinct `instructorId` values among the
instructor-requiring jumpers, where the absent value (`undefined`) counts as
one distinct value, exactly as a JS `Set` counts it. -/
def uniqueInstructorCount (allJumpers : List Jumper) : Nat :=
  ((instructorRequiredJumpers allJumpers).map (fun j => j.instructorId)).dedup.length

/-- The average-weight test `avgWeight > 200` (source lines 207–210). With an
empty roster the JS division is `0/0 = NaN` and `NaN > 200` is false, which
coincides with the `none` branch here. -/
def heavyLoadCond (allJumpers : List Jumper) : Bool :=
  match jsDiv ((allJumpers.map (fun j => j.weight)).sum) (allJumpers.length : ℚ) with
  | none => false
  | some avg => decide (avg > 200)

/-- Model of `generateRecommendations` (source lines 163–217); the five
conditional pushes are rendered as concatenated conditional singletons in
source order. -/
def generateRecommendations (groups : List JumpGroup) (allJumpers : List Jumper) :
    List String :=
  (if (allJumpers.filter (fun j => j.jumpType == "tandem")).length > 6 then
    [recSplitTandems] else []) ++
  (if (allJumpers.filter (fun j => j.jumpType == "aff")).length > 4 then
    [recAffCoverage] else []) ++
  (if groups.length > 5 then [recConsolidate] else []) ++
  (if (instructorRequiredJumpers allJumpers).length > uniqueInstructorCount allJumpers * 2 then
    [recInstructorCapacity] else []) ++
  (if heavyLoadCond allJumpers then [recHeavyLoad] else [])

/-- Model of `calculateExitOrder` (source lines 30–72). -/
def calculateExitOrder (jumpers : List Jumper) : OptimizedLoad :=
  let sortedJumpers := jumpers.insertionSort exitBefore
  let groups := createJumpGroups sortedJumpers
  { exitOrder := sortedJumpers
    groups := groups
    totalTime := calculateTotalTime groups
    recommendations := generateRecommendations groups jumpers }

/-- Model of `getJumperPriority` (source lines 252–293): the three `switch`
statements become nested conditionals; a jump type or experience level outside
the handled cases contributes 0. -/
def getJumperPriority (jumper : Jumper) : Int :=
  (if jumper.jumpType = "tandem" then 100
   else if jumper.jumpType = "aff" then 80
   else if jumper.jumpType = "coach_jump" then 60
   else if jumper.jumpType = "fun_jump" then 40
   else 0) +
  (if jumper.requiresInstructor.getD false then 20 else 0) +
  (if jumper.experienceLevel = "beginner" then 15
   else if jumper.experienceLevel = "intermediate" then 10
   else if jumper.experienceLevel = "advanced" then 5
   else 0)

/-- The sorting relation induced by the capacity comparator
`(a, b) ↦ getJumperPriority(b) − getJumperPriority(a)` (source lines 231–235). -/
def priorityBefore (a b : Jumper) : Prop :=
  getJumperPriority b - getJumperPriority a ≤ 0

instance : DecidableRel priorityBefore :=
  fun _ _ => inferInstanceAs (Decidable (_ - _ ≤ 0))

instance : IsTotal Jumper priorityBefore :=
  ⟨fun a b => by unfold priorityBefore; omega⟩

instance : IsTrans Jumper priorityBefore :=
  ⟨fun a b c h1 h2 => by unfold priorityBefore at h1 h2 ⊢; omega⟩

/-- The sorted copy `prioritizedJumpers` of `optimizeCapacity`. -/
def prioritizeJumpers (potentialJumpers : List Jumper) : List Jumper :=
  potentialJumpers.insertionSort priorityBefore

/-- Model of `optimizeCapacity` (source lines 222–247). `availableSlots` is a
natural number (the spec restricts seats to `S ≥ 0`; for non-negative counts
JS `slice(0, S)` and `slice(S)` are `take` and `drop`). The utilization score
`(selected.length / availableSlots) * 100` is `NaN` (`none`) when
`availableSlots = 0`. -/
def optimizeCapacity (availableSlots : Nat) (potentialJumpers : List Jumper) :
    CapacityResult :=
  let prioritizedJumpers := prioritizeJumpers potentialJumpers
  let selectedJumpers := prioritizedJumpers.take availableSlots
  { selectedJumpers := selectedJumpers
    waitingList := prioritizedJumpers.drop availableSlots
    utilizationScore :=
      (jsDiv (selectedJumpers.length : ℚ) (availableSlots : ℚ)).map (fun q => q * 100) }

/-- The relation asserted of consecutive jumpers by the tandem-first
property: a later jumper can be tandem only if the earlier one is. -/
def tandemFirst (a b : Jumper) : Prop :=
  b.jumpType = "tandem" → a.jumpType = "tandem"

/-- The membership predicate of a tandem altitude/fall-rate class, used to
state stability of the exit sort on mutually tied tandem jumpers. -/
def tandemClass (alt rate : Int) (j : Jumper) : Bool :=
  j.jumpType == "tandem" && (j.exitAltitude == alt && effectiveFallRate j == rate)

/-- The group well-formedness asserted by the spec: at most eight jumpers,
all carrying the group's composite key. -/
def GoodGroup (g : JumpGroup) : Prop :=
  g.jumpers.length ≤ 8 ∧ ∀ j ∈ g.jumpers, groupKey j = g.groupType

/-! ### Concrete rosters used as witnesses and counterexamples -/

/-- A tandem jumper at 10,000 ft with every optional field absent. -/
def jumperT1 : Jumper :=
  ⟨"t1", "t1", "tandem", "expert", 180, 10000, none, none, none⟩

/-- A tandem jumper at 14,000 ft with every optional field absent. -/
def jumperT2 : Jumper :=
  ⟨"t2", "t2", "tandem", "expert", 180, 14000, none, none, none⟩

/-- A tandem jumper requiring an instructor with no assigned instructor. -/
def jumperReq : Jumper :=
  ⟨"r1", "r1", "tandem", "beginner", 180, 14000, none, some true, none⟩

/-- A plain tandem jumper used to exhibit a concrete jump group. -/
def jumperW : Jumper :=
  ⟨"w", "w", "tandem", "expert", 180, 14000, none, none, none⟩

/-- The single group produced for the roster `[jumperW]`. -/
def groupW : JumpGroup :=
  ⟨[jumperW], 14000, "tandem-14000", 60⟩

/-- The five-candidate pool of the capacity-allocation example: priorities
100, 100, 80, 40, 40 in input order. -/
def capacityPool : List Jumper :=
  [⟨"A", "A", "tandem", "expert", 180, 14000, none, none, none⟩,
   ⟨"B", "B", "tandem", "expert", 180, 14000, none, none, none⟩,
   ⟨"C", "C", "aff", "expert", 180, 14000, none, none, none⟩,
   ⟨"D", "D", "fun_jump", "expert", 180, 14000, none, none, none⟩,
   ⟨"E", "E", "fun_jump", "expert", 180, 14000, none, none, none⟩]

/-- Two fun jumpers of weight exactly 200: the boundary roster for the
average-weight warning. -/
def boundaryWeightRoster : List Jumper :=
  [⟨"h1", "h1", "fun_jump", "expert", 200, 14000, none, none, none⟩,
   ⟨"h2", "h2", "fun_jump", "expert", 200, 14000, none, none, none⟩]

/-! ### Projections of the engine entry point -/

theorem calculateExitOrder_exitOrder (r : List Jumper) :
    (calculateExitOrder r).exitOrder = r.insertionSort exitBefore := rfl

theorem calculateExitOrder_groups (r : List Jumper) :
    (calculateExitOrder r).groups = createJumpGroups (r.insertionSort exitBefore) := rfl

theorem calculateExitOrder_recommendations (r : List Jumper) :
    (calculateExitOrder r).recommendations =
      generateRecommendations (createJumpGroups (r.insertionSort exitBefore)) r := rfl

/-! ### Generic lemmas about the stable-sort model -/

/-- Inserting an element that fails the predicate does not change the
filtered sequence. -/
theorem filter_orderedInsert_of_neg {α : Type} (r : α → α → Prop) [DecidableRel r]
    (p : α → Bool) (x : α) (hx : p x = false) :
    ∀ s : List α, ((s.orderedInsert r x).filter p) = s.filter p := by
  intro s
  induction s with
  | nil => simp [orderedInsert, hx]
  | cons e t ih =>
    by_cases h : r x e
    · simp [orderedInsert, h, hx]
    · simp only [orderedInsert, if_neg h, filter_cons]
      rw [ih]

/-- Inserting an element that satisfies the predicate, when it sorts no later
than every element of the list satisfying the predicate, puts it at the head
of the filtered sequence. -/
theorem filter_orderedInsert_of_pos {α : Type} (r : α → α → Prop) [DecidableRel r]
    (p : α → Bool) (x : α) (hx : p x = true) :
    ∀ s : List α, (∀ e ∈ s, p e = true → r x e) →
      ((s.orderedInsert r x).filter p) = x :: s.filter p := by
  intro s
  induction s with
  | nil => intro _; simp [orderedInsert, hx]
  | cons e t ih =>
    intro h
    by_cases hr : r x e
    · simp [orderedInsert, hr, hx]
    · have hpe : p e = false := by
        cases hpe : p e with
        | true => exact absurd (h e (mem_cons_self e t) hpe) hr
        | false => rfl
      simp only [orderedInsert, if_neg hr, filter_cons, hpe, cond_false]
      rw [ih (fun a ha hpa => h a (mem_cons_of_mem e ha) hpa)]
      simp [hpe]

/-- Stability of the insertion-sort model on a class of mutually tied
elements: the subsequence of elements satisfying the predicate is unchanged,
provided any two elements of the class sort-no-later than each other. -/
theorem filter_insertionSort_of_class {α : Type} (r : α → α → Prop) [DecidableRel r]
    (p : α → Bool) (h : ∀ a b, p a = true → p b = true → r a b) :
    ∀ l : List α, ((l.insertionSort r).filter p) = l.filter p := by
  intro l
  induction l with
  | nil => rfl
  | cons x t ih =>
    cases hx : p x with
    | false =>
      simp only [insertionSort]
      rw [filter_orderedInsert_of_neg r p x hx, ih, filter_cons, hx]
      simp
    | true =>
      simp only [insertionSort]
      rw [filter_orderedInsert_of_pos r p x hx _
        (fun e _ hpe => h x e hx hpe), ih, filter_cons, hx]
      simp

/-! ### The tandem-first property of the exit comparator -/

/-- A tandem jumper compares strictly before every non-tandem jumper. -/
theorem cmpExit_tandem_left {a b : Jumper} (ha : a.jumpType = "tandem")
    (hb : b.jumpType ≠ "tandem") : cmpExit a b = -1 := by
  simp [cmpExit, ha, hb]

/-- A non-tandem jumper compares strictly after every tandem jumper. -/
theorem cmpExit_tandem_right {a b : Jumper} (hb : b.jumpType = "tandem")
    (ha : a.jumpType ≠ "tandem") : cmpExit a b = 1 := by
  simp [cmpExit, ha, hb]

/-- A tandem jumper may sort before any non-tandem jumper. -/
theorem exitBefore_of_tandem {a b : Jumper} (ha : a.jumpType = "tandem")
    (hb : b.jumpType ≠ "tandem") : exitBefore a b := by
  unfold exitBefore
  rw [cmpExit_tandem_left ha hb]
  decide

/-- Ordered insertion preserves the tandem-first invariant. -/
theorem pairwise_tandemFirst_orderedInsert (x : Jumper) :
    ∀ s : List Jumper, Pairwise tandemFirst s →
      Pairwise tandemFirst (s.orderedInsert exitBefore x) := by
  intro s
  induction s with
  | nil => intro _; simp [orderedInsert, Pairwise.nil]
  | cons e t ih =>
    intro hs
    rw [pairwise_cons] at hs
    obtain ⟨he, ht⟩ := hs
    by_cases hr : exitBefore x e
    · simp only [orderedInsert, if_pos hr]
      rw [pairwise_cons]
      refine ⟨?_, pairwise_cons.mpr ⟨he, ht⟩⟩
      intro b hb htb
      have het : e.jumpType = "tandem" := by
        rcases mem_cons.mp hb with hbe | hbt
        · exact hbe ▸ htb
        · exact he b hbt htb
      by_contra hxt
      have h1 : cmpExit x e = 1 := cmpExit_tandem_right het hxt
      have h2 : ¬ exitBefore x e := by simp [exitBefore, h1]
      exact h2 hr
    · simp only [orderedInsert, if_neg hr]
      rw [pairwise_cons]
      constructor
      · intro b hb
        rcases (mem_orderedInsert exitBefore).mp hb with hbx | hbt
        · subst hbx
          intro hbtandem
          by_contra het
          exact hr (exitBefore_of_tandem hbtandem het)
        · exact he b hbt
      · exact ih ht

/-- The sorted exit order satisfies the tandem-first invariant pairwise. -/
theorem pairwise_tandemFirst_insertionSort :
    ∀ l : List Jumper, Pairwise tandemFirst (l.insertionSort exitBefore) := by
  intro l
  induction l with
  | nil => exact Pairwise.nil
  | cons x t ih => exact pairwise_tandemFirst_orderedInsert x _ ih

/-! ### Invariants of the grouping loop -/

/-- The concatenated members of the produced groups are the already-produced
members, then the current group, then the remaining input. -/
theorem createJumpGroupsLoop_flatten :
    ∀ (l : List Jumper) (gs : List JumpGroup) (cur : List Jumper)
      (alt : Int) (ty : String),
      ((createJumpGroupsLoop l gs cur alt ty).map (fun g => g.jumpers)).flatten =
        (gs.map (fun g => g.jumpers)).flatten ++ cur ++ l := by
  intro l
  induction l with
  | nil =>
    intro gs cur alt ty
    by_cases h : cur.length > 0
    · simp [createJumpGroupsLoop, h]
    · have hc : cur = [] := length_eq_zero.mp (by omega)
      simp [createJumpGroupsLoop, h, hc]
  | cons j rest ih =>
    intro gs cur alt ty
    by_cases h : ty ≠ groupKey j ∨ cur.length ≥ 8
    · by_cases hc : cur.length > 0
      · simp only [createJumpGroupsLoop, if_pos h, if_pos hc]
        rw [ih]
        simp
      · have hcur : cur = [] := length_eq_zero.mp (by omega)
        simp only [createJumpGroupsLoop, if_pos h, if_neg hc]
        rw [ih]
        simp [hcur]
    · simp only [createJumpGroupsLoop, if_neg h]
      rw [ih]
      simp

/-- Every group the loop produces is well-formed, provided the accumulated
groups are and the current group obeys the loop invariant. -/
theorem createJumpGroupsLoop_good :
    ∀ (l : List Jumper) (gs : List JumpGroup) (cur : List Jumper)
      (alt : Int) (ty : String),
      (∀ g ∈ gs, GoodGroup g) → cur.length ≤ 8 → (∀ j ∈ cur, groupKey j = ty) →
      ∀ g ∈ createJumpGroupsLoop l gs cur alt ty, GoodGroup g := by
  intro l
  induction l with
  | nil =>
    intro gs cur alt ty hgs hlen hkeys g hg
    by_cases h : cur.length > 0
    · simp only [createJumpGroupsLoop, if_pos h] at hg
      rcases mem_append.mp hg with hg1 | hg2
      · exact hgs g hg1
      · rcases mem_singleton.mp hg2 with rfl
        exact ⟨hlen, hkeys⟩
    · simp only [createJumpGroupsLoop, if_neg h] at hg
      exact hgs g hg
  | cons j rest ih =>
    intro gs cur alt ty hgs hlen hkeys g hg
    by_cases h : ty ≠ groupKey j ∨ cur.length ≥ 8
    · simp only [createJumpGroupsLoop, if_pos h] at hg
      refine ih _ _ _ _ ?_ (by simp) (by simp) g hg
      intro g' hg'
      by_cases hc : cur.length > 0
      · rw [if_pos hc] at hg'
        rcases mem_append.mp hg' with hg1 | hg2
        · exact hgs g' hg1
        · rcases mem_singleton.mp hg2 with rfl
          exact ⟨hlen, hkeys⟩
      · rw [if_neg hc] at hg'
        exact hgs g' hg'
    · simp only [createJumpGroupsLoop, if_neg h] at hg
      push_neg at h
      obtain ⟨hty, hsm⟩ := h
      refine ih _ _ _ _ hgs ?_ ?_ g hg
      · rw [length_append]
        simp only [length_singleton]
        omega
      · intro j' hj'
        rcases mem_append.mp hj' with hj1 | hj2
        · exact hkeys j' hj1
        · rcases mem_singleton.mp hj2 with rfl
          exact hty.symm

/-! ### Membership in the recommendation list -/

theorem mem_ite_singleton {c : Prop} [Decidable c] {a s : String} :
    a ∈ (if c then [s] else []) ↔ c ∧ a = s := by
  by_cases h : c
  · simp [h]
  · simp [h]

/-- The instructor-capacity warning appears exactly when the source condition
on the raw `Set` size holds. -/
theorem recInstructorCapacity_mem (groups : List JumpGroup) (js : List Jumper) :
    recInstructorCapacity ∈ generateRecommendations groups js ↔
      (instructorRequiredJumpers js).length > uniqueInstructorCount js * 2 := by
  simp only [generateRecommendations, mem_append, mem_ite_singleton]
  simp [recSplitTandems, recAffCoverage, recConsolidate, recInstructorCapacity,
    recHeavyLoad]

/-- The heavy-load warning appears exactly when the average-weight test
holds. -/
theorem recHeavyLoad_mem (groups : List JumpGroup) (js : List Jumper) :
    recHeavyLoad ∈ generateRecommendations groups js ↔ heavyLoadCond js = true := by
  simp only [generateRecommendations, mem_append, mem_ite_singleton]
  simp [recSplitTandems, recAffCoverage, recConsolidate, recInstructorCapacity,
    recHeavyLoad]

/-- The average-weight test succeeds exactly on a non-empty roster whose mean
weight strictly exceeds 200. -/
theorem heavyLoadCond_iff (js : List Jumper) :
    heavyLoadCond js = true ↔
      js ≠ [] ∧ 200 < ((js.map fun j => j.weight).sum) / (js.length : ℚ) := by
  unfold heavyLoadCond jsDiv
  by_cases h : (js.length : ℚ) = 0
  · have h0 : js.length = 0 := by exact_mod_cast h
    have hnil : js = [] := length_eq_zero.mp h0
    subst hnil
    simp
  · have hne : js ≠ [] := by
      intro hnil
      subst hnil
      simp at h
    simp [if_neg h, hne]

/-! ### Claim theorems -/

/-- C1: the claim states that for an empty roster `calculateExitOrder`
returns `totalTime = 1200` exactly, the transition term being excluded for a
group count of 0. The code instead computes
`1200 + 0 + (0 − 1) × 30 = 1170`: the transition term is applied even with
zero groups. This theorem evaluates the code at the failing input. -/
theorem c1_empty_roster_total_time :
    (calculateExitOrder []).totalTime = 1170 ∧
      (calculateExitOrder []).totalTime ≠ 1200 := by
  decide

/-- C3: with zero seats the allocator selects nobody and waitlists every
candidate (as the claim states), but the utilization score is the JS value
`NaN` from `(0/0) × 100` — modelled `none` — not the `0` the claim states.
This theorem evaluates the code on an arbitrary pool at seats = 0. -/
theorem c3_zero_seats :
    ∀ pool : List Jumper,
      (optimizeCapacity 0 pool).selectedJumpers = [] ∧
      (optimizeCapacity 0 pool).waitingList.Perm pool ∧
      (optimizeCapacity 0 pool).utilizationScore = none := by
  intro pool
  refine ⟨rfl, ?_, ?_⟩
  · simpa [optimizeCapacity, prioritizeJumpers] using
      perm_insertionSort priorityBefore pool
  · simp [optimizeCapacity, jsDiv]

/-- C4: the computed exit order is a permutation of the input roster — the
same multiset of jumpers, hence the same multiset of ids and the same
cardinality. -/
theorem c4_exit_order_perm :
    ∀ r : List Jumper,
      ((calculateExitOrder r).exitOrder).Perm r ∧
      ((calculateExitOrder r).exitOrder.map (fun j => j.id)).Perm
        (r.map (fun j => j.id)) := by
  intro r
  have h : ((calculateExitOrder r).exitOrder).Perm r := by
    rw [calculateExitOrder_exitOrder]
    exact perm_insertionSort exitBefore r
  exact ⟨h, h.map _⟩

/-- C6: the groups partition the exit order — concatenating the groups'
member lists in order reproduces `exitOrder` exactly — and the empty roster
yields an empty group sequence. -/
theorem c6_groups_concat :
    ∀ r : List Jumper,
      (((calculateExitOrder r).groups).map (fun g => g.jumpers)).flatten =
        (calculateExitOrder r).exitOrder ∧
      (calculateExitOrder ([] : List Jumper)).groups = [] := by
  intro r
  constructor
  · rw [calculateExitOrder_groups, calculateExitOrder_exitOrder]
    unfold createJumpGroups
    rw [createJumpGroupsLoop_flatten]
    simp
  · rfl

/-- C7: every produced jump group holds at most eight jumpers, and every
jumper of a group carries the group's composite key
`jumpType-exitAltitude` stored in `groupType` (so all jumpers of a group
share the same jump type and exit altitude encoding). -/
theorem c7_group_invariants :
    ∀ r : List Jumper, ∀ g ∈ (calculateExitOrder r).groups,
      g.jumpers.length ≤ 8 ∧ ∀ j ∈ g.jumpers, groupKey j = g.groupType := by
  intro r g hg
  rw [calculateExitOrder_groups] at hg
  unfold createJumpGroups at hg
  exact createJumpGroupsLoop_good _ _ _ _ _ (by simp) (by simp) (by simp) g hg

/-- Witness for C7: the singleton tandem roster produces exactly one
concrete group, to which the theorem applies. -/
theorem c7_group_invariants_witness :
    groupW ∈ (calculateExitOrder [jumperW]).groups ∧
      (groupW.jumpers.length ≤ 8 ∧
        ∀ j ∈ groupW.jumpers, groupKey j = groupW.groupType) :=
  ⟨by decide, c7_group_invariants [jumperW] groupW (by decide)⟩

/-- Counterexample to C2: for the roster of one tandem jumper who requires
an instructor and has no assigned `instructorId`, R = 1 and the count of
distinct NON-NULL `instructorId` values is 0, so the claimed condition
R > 2 × U holds and the claim demands the warning; but the code's `Set`
counts the absent value as one distinct instructor, tests `1 > 2`, and
emits no warning. -/
theorem c2_instructor_warning_cex :
    (instructorRequiredJumpers [jumperReq]).length = 1 ∧
    (((instructorRequiredJumpers [jumperReq]).map
        (fun j => j.instructorId)).filterMap id).dedup.length = 0 ∧
    recInstructorCapacity ∉ (calculateExitOrder [jumperReq]).recommendations := by
  refine ⟨by decide, by decide, ?_⟩
  rw [calculateExitOrder_recommendations, recInstructorCapacity_mem]
  decide

/-- C2 amended: the instructor-capacity warning is emitted iff R > 2 × U,
where R counts jumpers with a truthy `requiresInstructor` and U counts the
distinct `instructorId` values among them with the absent value counting as
one distinct value (the JS `Set` contains `undefined`); in particular a
fully unassigned cohort warns only when R > 2. -/
theorem c2_instructor_warning_iff :
    ∀ r : List Jumper,
      (recInstructorCapacity ∈ (calculateExitOrder r).recommendations ↔
        (instructorRequiredJumpers r).length > uniqueInstructorCount r * 2) := by
  intro r
  rw [calculateExitOrder_recommendations]
  exact recInstructorCapacity_mem _ _

/-- Counterexample to C5: the roster `[jumperT1, jumperT2]` of two tandem
jumpers at altitudes 10000 and 14000 is re-ordered to `[t2, t1]` by the exit
sorter (higher altitude first within a type), so tandem jumpers do not keep
their original relative order as the claim states. -/
theorem c5_tandem_order_cex :
    ((calculateExitOrder [jumperT1, jumperT2]).exitOrder.map (fun j => j.id)) =
      ["t2", "t1"] ∧
    ((calculateExitOrder [jumperT1, jumperT2]).exitOrder.filter
        (fun j => j.jumpType == "tandem")) ≠
      ([jumperT1, jumperT2].filter (fun j => j.jumpType == "tandem")) := by
  decide

/-- C5 amended: every tandem jumper precedes every non-tandem jumper in the
exit order, and tandem jumpers that are mutually tied — sharing one exit
altitude and one effective fall rate — keep their original relative order;
tandems that differ in altitude or effective fall rate may be re-ordered
(see the counterexample). -/
theorem c5_tandem_first_and_stability :
    ∀ (r : List Jumper) (alt rate : Int),
      Pairwise tandemFirst (calculateExitOrder r).exitOrder ∧
      (calculateExitOrder r).exitOrder.filter (tandemClass alt rate) =
        r.filter (tandemClass alt rate) := by
  intro r alt rate
  rw [calculateExitOrder_exitOrder]
  refine ⟨pairwise_tandemFirst_insertionSort r, ?_⟩
  apply filter_insertionSort_of_class
  intro a b ha hb
  simp only [tandemClass, Bool.and_eq_true, beq_iff_eq] at ha hb
  obtain ⟨hat, haa, har⟩ := ha
  obtain ⟨hbt, hba, hbr⟩ := hb
  unfold exitBefore cmpExit
  rw [hat, hbt, haa, hba, har, hbr]
  simp

/-- C9: the heavy-load warning is emitted iff the roster is non-empty and
its mean weight strictly exceeds 200; an empty roster skips the check
(JS computes 0/0 = NaN, which compares false), and a mean of exactly 200 —
as in the concrete two-jumper boundary roster of weight 200 each — does not
trigger the warning. -/
theorem c9_weight_warning :
    (∀ r : List Jumper,
      (recHeavyLoad ∈ (calculateExitOrder r).recommendations ↔
        r ≠ [] ∧ 200 < ((r.map fun j => j.weight).sum) / (r.length : ℚ))) ∧
    recHeavyLoad ∉ (calculateExitOrder boundaryWeightRoster).recommendations := by
  have hmain : ∀ r : List Jumper,
      (recHeavyLoad ∈ (calculateExitOrder r).recommendations ↔
        r ≠ [] ∧ 200 < ((r.map fun j => j.weight).sum) / (r.length : ℚ)) := by
    intro r
    rw [calculateExitOrder_recommendations, recHeavyLoad_mem, heavyLoadCond_iff]
  refine ⟨hmain, ?_⟩
  rw [hmain]
  norm_num [boundaryWeightRoster]

/-- C10: a present fall rate of 0 is falsy in the source's
`a.fallRate || getDefaultFallRate(a)`, so the comparator's fall-rate
tie-break uses the jump-type/experience-derived default fall rate for it,
exactly as for an absent fall rate, on either side of the comparison. -/
theorem c10_zero_fall_rate :
    ∀ a b : Jumper,
      effectiveFallRate { a with fallRate := some 0 } = getDefaultFallRate a ∧
      effectiveFallRate { a with fallRate := none } = getDefaultFallRate a ∧
      cmpExit { a with fallRate := some 0 } b =
        cmpExit { a with fallRate := none } b ∧
      cmpExit b { a with fallRate := some 0 } =
        cmpExit b { a with fallRate := none } :=
  fun _ _ => ⟨rfl, rfl, rfl, rfl⟩

/-- C8: the capacity allocator sorts candidates by descending priority
score (tandem 100, aff 80, coach_jump 60, fun_jump 40, other 0; +20 for a
truthy requiresInstructor; +15/+10/+5/+0 for beginner/intermediate/
advanced/expert), keeps tied candidates in input order, selects the first
min(S, poolSize) candidates and waitlists the rest; on the example pool
with priorities (100,100,80,40,40) and three seats it selects the two 100s
and the 80 in input order, waitlists the two 40s, and reports 100%
utilization. -/
theorem c8_capacity_allocation :
    (∀ (s : Nat) (pool : List Jumper),
      Sorted (fun a b => getJumperPriority b ≤ getJumperPriority a)
        (prioritizeJumpers pool) ∧
      (∀ p : Int,
        (prioritizeJumpers pool).filter (fun j => getJumperPriority j == p) =
          pool.filter (fun j => getJumperPriority j == p)) ∧
      (optimizeCapacity s pool).selectedJumpers = (prioritizeJumpers pool).take s ∧
      (optimizeCapacity s pool).waitingList = (prioritizeJumpers pool).drop s ∧
      (optimizeCapacity s pool).selectedJumpers.length = min s pool.length) ∧
    (capacityPool.map getJumperPriority = [100, 100, 80, 40, 40] ∧
      (optimizeCapacity 3 capacityPool).selectedJumpers.map (fun j => j.id) =
        ["A", "B", "C"] ∧
      (optimizeCapacity 3 capacityPool).waitingList.map (fun j => j.id) =
        ["D", "E"] ∧
      (optimizeCapacity 3 capacityPool).utilizationScore = some 100) := by
  constructor
  · intro s pool
    refine ⟨?_, ?_, rfl, rfl, ?_⟩
    · exact Pairwise.imp (fun h => by unfold priorityBefore at h; omega)
        (sorted_insertionSort priorityBefore pool)
    · intro p
      apply filter_insertionSort_of_class
      intro a b ha hb
      rw [beq_iff_eq] at ha hb
      unfold priorityBefore
      omega
    · show ((prioritizeJumpers pool).take s).length = min s pool.length
      rw [length_take]
      unfold prioritizeJumpers
      rw [length_insertionSort]
  · refine ⟨by decide, by decide, by decide, ?_⟩
    have hsel : (((prioritizeJumpers capacityPool).take 3).length : ℚ) = 3 := by
      norm_num [show ((prioritizeJumpers capacityPool).take 3).length = 3 by decide]
    show (jsDiv (((prioritizeJumpers capacityPool).take 3).length : ℚ)
        ((3 : Nat) : ℚ)).map (fun q => q * 100) = some 100
    rw [hsel]
    norm_num [jsDiv]

end LoadOrganiser
